import Mathlib

/-
  Verification development for the OpenIPC capture-and-delivery pipeline
  (custom_components/recorder.py).  The Python code is shallowly embedded:
  the external world (camera HTTP captures, ffmpeg child processes, the
  filesystem, the Telegram API) is an explicit environment record, and every
  method of `OpenIPCRecorder` that the claims touch becomes a pure Lean
  function of that environment.  Filesystem primitives (mkdir, remove,
  rmdir) are modelled as succeeding; exceptions the Python code swallows
  are modelled by the corresponding `try/except` branch result.
-/

namespace OpenIPC

/-! ### OSD template model

`record_video` expands `osd_config['template']` with
`template.format(**values)` where `values` is the dict built by
`_get_osd_values` (recorder.py lines 143-180).  A template is a list of
literal chunks and `{placeholder}` fields; `str.format` raises `KeyError`
on a field whose key is not in the dict. -/

inductive TItem where
  | lit (s : String)
  | ph (key : String)
deriving DecidableEq, Repr

/-- The ten keys `_get_osd_values` always puts in the values dict
(recorder.py lines 154-165 and 169-180: both branches define exactly
these keys). -/
def osdKeys : List String :=
  ["camera_name", "timestamp", "cpu_temp", "uptime", "fps", "bitrate",
   "resolution", "wifi_signal", "motion", "recording"]

/-- Model of `template.format(**values)`: substitute each recognized placeholder;
an unrecognized placeholder raises (`none`), exactly as `str.format`
raises `KeyError` in recorder.py line 460. -/
def expandTemplate (vals : String → Option String) : List TItem → Option String
  | [] => some ""
  | TItem.lit s :: rest =>
    match expandTemplate vals rest with
    | none => none
    | some t => some (s ++ t)
  | TItem.ph k :: rest =>
    match vals k with
    | none => none
    | some v =>
      match expandTemplate vals rest with
      | none => none
      | some t => some (v ++ t)

/-- Model of `[line.strip() for line in osd_text.split('\n') if line.strip()]`
(recorder.py line 461). -/
def splitOsdLines (s : String) : List String :=
  ((s.splitOn "\n").map String.trim).filter (fun l => !l.isEmpty)

/-- The `osd_config` dict as `record_video` reads it: only the
`template` entry influences control flow (position, font size, color are
consumed inside `_add_text_to_image`, which catches every exception at
line 362 and never raises past its boundary). -/
structure OsdCfg where
  template : List TItem

/-! ### Environment for `record_video` -/

/-- External world for one `record_video` run.

* `captureOk i` — whether `_capture_snapshot` for loop index `i`
  (file `frame_{i:04d}.jpg`) succeeds (writes a frame file and returns)
  or raises (writes nothing).
* `telemetry k` — the telemetry string `_get_osd_values` reports for a
  recognized key `k` (e.g. "N/A" defaults).
* `ffmpegFound` — `shutil.which("ffmpeg")` is non-null (line 532).
* `encodeOk` — the spawned ffmpeg assembly process exits 0 (line 566).
* `outExists` / `outSize` — whether the output artifact exists after
  assembly, and `os.path.getsize` for it (line 501). -/
structure RecordEnv where
  captureOk : Nat → Bool
  telemetry : String → String
  ffmpegFound : Bool
  encodeOk : Bool
  outExists : Bool
  outSize : Nat

/-- The values dict lookup that `template.format(**values)` performs:
defined exactly on `osdKeys`. -/
def osdLookup (env : RecordEnv) (k : String) : Option String :=
  if k ∈ osdKeys then some (env.telemetry k) else none

/-- Result of `record_video`, together with the externally observable
side effects of the run.  The Python failure dict carries only
`success`/`error`; `size`/`frames` are `none` there.  `captureAttempts`
counts calls to `_capture_snapshot`; `writtenFrames` lists the loop
indices whose frame file `frame_{i:04d}.jpg` was written into the temp
directory; `osdLines` is the line list handed to `_add_text_to_image`
(`none` when no OSD is applied); `tempDirExists` is whether the per-run
temp directory still exists when the call returns. -/
structure RecordOutcome where
  success : Bool
  error : Option String
  size : Option Nat
  frames : Option Nat
  captureAttempts : Nat
  writtenFrames : List Nat
  osdLines : Option (List String)
  tempDirExists : Bool
deriving DecidableEq, Repr

/-- Model of `frames = duration // snapshot_interval; if frames < 1: frames = 1`
(recorder.py lines 448-451). -/
def snapshotFrameCount (duration snapshot_interval : Nat) : Nat :=
  if duration / snapshot_interval < 1 then 1 else duration / snapshot_interval

/-- Lines 456-466: compute the OSD line list.  A template expansion
error (`KeyError` from an unrecognized placeholder) is caught at line
464 and replaced by the single fixed line `["OSD TEST"]`. -/
def computeOsdLines (env : RecordEnv) (add_osd : Bool) (osd_config : Option OsdCfg) :
    Option (List String) :=
  match add_osd, osd_config with
  | true, some cfg =>
    match expandTemplate (osdLookup env) cfg.template with
    | some txt => some (splitOsdLines txt)
    | none => some ["OSD TEST"]
  | _, _ => none

/-- Model of `_create_video_from_frames` (recorder.py lines 528-575), reduced to
the error it raises, if any.  It raises when ffmpeg is absent (line
534), when `frame_0000.jpg` does not exist (line 540) — that file exists
iff the capture at loop index 0 succeeded, since the loop always runs
index 0 and nothing deletes frames before assembly — and when the
spawned process exits non-zero (line 569). -/
def create_video_from_frames (env : RecordEnv) : Option String :=
  if env.ffmpegFound = false then some "ffmpeg not found"
  else if env.captureOk 0 = false then some "No frames available"
  else if env.encodeOk = false then some "FFmpeg failed: encode error"
  else none

/-- Model of `record_video` (recorder.py lines 428-526).

Control flow: make temp dir; `frames := max(1, duration //
snapshot_interval)`; compute OSD lines once (before the loop); for each
`i < frames` attempt one capture, a failure being logged and skipped
(lines 481-482); if no capture succeeded raise
"No frames captured successfully" (line 489); assemble via
`_create_video_from_frames`; clean the temp directory (on the success
path at line 498, on every exception path at line 522 —
`_cleanup_temp_files_async` removes the frame files and the directory);
report `os.path.getsize` of the artifact, `0` when it does not exist
(line 501). -/
def capturedIndices (env : RecordEnv) (frames : Nat) : List Nat :=
  (List.range frames).filter env.captureOk

def record_video (env : RecordEnv) (duration : Nat) (snapshot_interval : Nat)
    (add_osd : Bool) (osd_config : Option OsdCfg) : RecordOutcome :=
  if (capturedIndices env (snapshotFrameCount duration snapshot_interval)).length = 0 then
    { success := false, error := some "No frames captured successfully",
      size := none, frames := none,
      captureAttempts := snapshotFrameCount duration snapshot_interval,
      writtenFrames := capturedIndices env (snapshotFrameCount duration snapshot_interval),
      osdLines := computeOsdLines env add_osd osd_config, tempDirExists := false }
  else
    match create_video_from_frames env with
    | some err =>
      { success := false, error := some err,
        size := none, frames := none,
        captureAttempts := snapshotFrameCount duration snapshot_interval,
        writtenFrames := capturedIndices env (snapshotFrameCount duration snapshot_interval),
        osdLines := computeOsdLines env add_osd osd_config, tempDirExists := false }
    | none =>
      { success := true, error := none,
        size := some (if env.outExists then env.outSize else 0),
        frames := some (capturedIndices env (snapshotFrameCount duration snapshot_interval)).length,
        captureAttempts := snapshotFrameCount duration snapshot_interval,
        writtenFrames := capturedIndices env (snapshotFrameCount duration snapshot_interval),
        osdLines := computeOsdLines env add_osd osd_config, tempDirExists := false }

/-! ### Delivery engine: `send_to_telegram_direct` and `send_to_telegram` -/

/-- Python truthiness of an optional string (`None` and `""` are
falsy): `chat_id or default_chat_id`, `if not target_chat_id`,
`if bot_token and target_chat_id` all test this. -/
def pyTruthy : Option String → Bool
  | none => false
  | some s => !s.isEmpty

/-- Python `a or b` on optional strings. -/
def pyOrOpt (a b : Option String) : Option String :=
  if pyTruthy a then a else b

/-- The Telegram hard size ceiling check `file_size_mb > 50` where
`file_size_mb = size_bytes / 1024 / 1024` as a float.  Division of an
integer below 2^53 by 2^20 is exact in binary floating point, so the
comparison is exactly `size_bytes > 50 * 1024 * 1024`. -/
def overTelegramCeiling (sizeBytes : Nat) : Bool :=
  52428800 < sizeBytes

/-- Model of `timeout_seconds = max(120, min(600, int(file_size_mb * 30)))`
(recorder.py line 778).  For the sizes that pass the ceiling check
(≤ 50 MB) `int(file_size_mb * 30)` is exactly `size_bytes * 30 / 2^20`
rounded toward zero, i.e. Nat division. -/
def timeoutSeconds (sizeBytes : Nat) : Nat :=
  max 120 (min 600 (sizeBytes * 30 / 1048576))

/-- Model of `current_timeout = timeout_seconds * (attempt + 1)` (recorder.py
line 792), with `attempt` the 0-based loop index. -/
def attemptTimeout (sizeBytes attempt : Nat) : Nat :=
  timeoutSeconds sizeBytes * (attempt + 1)

/-- Outcome of one attempt of the direct-API upload loop:
the POST returns `ok`, or an API error whose description may contain
"file is too big" (line 836), or the attempt times out (line 845), or
some other exception is raised (line 852). -/
inductive DirectOutcome where
  | ok
  | apiError (fileTooBig : Bool)
  | timeoutErr
  | exc
deriving DecidableEq, Repr

/-- The `for attempt in range(max_retries)` loop of
`send_to_telegram_direct` (recorder.py lines 788-857): first argument
is the remaining iterations, second the current attempt index.  Returns
(success, number of attempts performed).  An `ok` response returns
`True`; an API error with "file is too big" returns `False` at once
(line 838); every other failure falls through to the next iteration;
exhausting the loop returns `False` (line 859). -/
def directLoop (outcome : Nat → DirectOutcome) : Nat → Nat → Bool × Nat
  | 0, _ => (false, 0)
  | n + 1, i =>
    match outcome i with
    | DirectOutcome.ok => (true, 1)
    | DirectOutcome.apiError tooBig =>
      if tooBig then (false, 1)
      else
        let r := directLoop outcome n (i + 1)
        (r.1, r.2 + 1)
    | DirectOutcome.timeoutErr =>
      let r := directLoop outcome n (i + 1)
      (r.1, r.2 + 1)
    | DirectOutcome.exc =>
      let r := directLoop outcome n (i + 1)
      (r.1, r.2 + 1)

/-- Model of `send_to_telegram_direct` (recorder.py lines 765-859), returning
(result, number of upload attempts performed).  The size ceiling is
checked before any attempt (lines 772-775). -/
def send_to_telegram_direct (outcome : Nat → DirectOutcome) (sizeBytes : Nat)
    (max_retries : Nat) : Bool × Nat :=
  if overTelegramCeiling sizeBytes then (false, 0)
  else directLoop outcome max_retries 0

/-- The four delivery mechanisms `send_to_telegram` can attempt, in
priority order. -/
inductive Mech where
  | direct
  | sendVideo
  | sendFile
  | notifyTg
deriving DecidableEq, Repr

/-- External world for one `send_to_telegram` run.

* `fileExists` / `fileSize` — the artifact on disk.
* `botToken` / `configChatId` — `_get_telegram_config` output (the YAML
  `openipc` section; `configChatId` is already stringified).
* `hasSendVideo` / `hasSendFile` / `hasNotify` — the three
  `hass.services.has_service` probes (lines 946-948).
* `directOutcome i` — outcome of the i-th direct-API attempt.
* `sendVideoOk` — the `telegram_bot.send_video` service call succeeds
  inside `send_to_telegram_via_service`.
* `sendFileOk` / `notifyOk` — the `telegram_bot.send_file` and
  `notify.telegram_notify` service calls succeed. -/
structure TgEnv where
  fileExists : Bool
  fileSize : Nat
  botToken : Option String
  configChatId : Option String
  hasSendVideo : Bool
  hasSendFile : Bool
  hasNotify : Bool
  directOutcome : Nat → DirectOutcome
  sendVideoOk : Bool
  sendFileOk : Bool
  notifyOk : Bool

/-- Model of `send_to_telegram_via_service` (recorder.py lines 861-912): its own
existence and ceiling checks, then one `telegram_bot.send_video`
service call. -/
def send_to_telegram_via_service (env : TgEnv) : Bool :=
  if env.fileExists = false then false
  else if overTelegramCeiling env.fileSize then false
  else env.sendVideoOk

/-- Model of `send_to_telegram` (recorder.py lines 914-1032), returning the
result together with the list of delivery mechanisms on which an upload
was attempted, in order.  Gate order: file existence (916), size
ceiling (929), resolvable chat id (942).  Then Method 1 (direct API,
`max_retries=3`, entered only when the bot token is truthy), Method 2
(`telegram_bot.send_video`), Method 3 (`telegram_bot.send_file`),
Method 4 (`notify.telegram_notify`); first success returns `True`,
exhaustion returns `False`. -/
def send_to_telegram (env : TgEnv) (chatIdArg : Option String) : Bool × List Mech :=
  if env.fileExists = false then (false, [])
  else if overTelegramCeiling env.fileSize then (false, [])
  else
    let target := pyOrOpt chatIdArg env.configChatId
    if pyTruthy target = false then (false, [])
    else
      let tried1 := pyTruthy env.botToken
      let a1 : List Mech := if tried1 then [Mech.direct] else []
      if tried1 && (send_to_telegram_direct env.directOutcome env.fileSize 3).1 then
        (true, a1)
      else
        let a2 := a1 ++ (if env.hasSendVideo then [Mech.sendVideo] else [])
        if env.hasSendVideo && send_to_telegram_via_service env then (true, a2)
        else
          let a3 := a2 ++ (if env.hasSendFile then [Mech.sendFile] else [])
          if env.hasSendFile && env.sendFileOk then (true, a3)
          else
            let a4 := a3 ++ (if env.hasNotify then [Mech.notifyTg] else [])
            if env.hasNotify && env.notifyOk then (true, a4)
            else (false, a4)

/-! ### Stream recorder: `record_rtsp_stream` -/

/-- The fixed alternate-path list `rtsp_paths` inside
`record_rtsp_stream` (recorder.py lines 619-627). -/
def rtspAltPaths : List String :=
  ["/stream=0", "/av0_0", "/live", "/h264", "/video", "/ch0",
   "/cam/realmonitor?channel=1&subtype=0"]

/-- Choice of `stream_path` from `stream_profile` (recorder.py lines 629-632). -/
def primaryStreamPath (profile : String) : String :=
  if profile = "main" then "/stream=0" else "/stream=1"

/-- The alternates actually tried when the primary probe fails: the
`for alt_path in rtsp_paths` loop skips the entry equal to the primary
(recorder.py lines 643-645). -/
def rtspFallbackList (primary : String) : List String :=
  rtspAltPaths.filter (fun p => p ≠ primary)

/-- Lines 640-657: probe the primary path; on failure walk the
alternate list, skipping the entry equal to the primary, taking the
first path whose probe succeeds; `none` when the list is exhausted. -/
def resolveRtspPath (probe : String → Bool) (primary : String) : Option String :=
  if probe primary then some primary
  else (rtspFallbackList primary).find? probe

/-- Result of the main ffmpeg stream-copy invocation: exit code 0, a
non-zero exit whose stderr may contain "codec not currently supported"
(line 716) and/or "Connection refused"/"Connection timed out"
(line 720), or an exception while spawning. -/
inductive CopyRes where
  | exit0
  | exitErr (audioUnsupported : Bool) (connError : Bool) (msg : String)
  | exc (msg : String)
deriving DecidableEq, Repr

/-- External world for one `record_rtsp_stream` run.

* `probe p` — `_check_rtsp_available` for the URL built on path `p`.
* `copyTcp p a` — result of the TCP ffmpeg copy on path `p` with audio
  flag `a`.
* `copyUdp p` — whether the UDP retry (always without audio) exits 0.
* `outExists` / `outSize` — the artifact after a successful copy. -/
structure RtspEnv where
  probe : String → Bool
  copyTcp : String → Bool → CopyRes
  copyUdp : String → Bool
  outExists : Bool
  outSize : Nat

/-- Result of `record_rtsp_stream`; `resolvedPath` is the stream path
of the `rtsp_url` the recorder actually recorded from (or tried to),
`none` when no working URL was found. -/
structure RtspResult where
  success : Bool
  error : Option String
  size : Option Nat
  resolvedPath : Option String
  method : Option String
  audio : Option Bool
deriving DecidableEq, Repr

/-- Model of `{"success": False, "error": "No working RTSP URL found"}`
(recorder.py lines 654-657). -/
def noUrlResult : RtspResult :=
  { success := false, error := some "No working RTSP URL found",
    size := none, resolvedPath := none, method := none, audio := none }

/-- What `record_rtsp_stream` does after path resolution (recorder.py
lines 659-763): run the TCP copy; on exit 0 build the success dict
(method "rtsp"); on non-zero exit, with audio and an audio-codec
message retry the whole call without audio (`onAudioRetry`, line 718);
with a connection message retry once over UDP without audio (line 721),
succeeding with method "rtsp_udp"; otherwise return the TCP attempt's
stderr as the error.  An exception returns its message. -/
def rtspAfterResolve (env : RtspEnv) (path : String) (withAudio : Bool)
    (onAudioRetry : RtspResult) : RtspResult :=
  match env.copyTcp path withAudio with
  | CopyRes.exit0 =>
    { success := true, error := none,
      size := some (if env.outExists then env.outSize else 0),
      resolvedPath := some path, method := some "rtsp", audio := some withAudio }
  | CopyRes.exitErr au conn msg =>
    if withAudio && au then onAudioRetry
    else if conn then
      if env.copyUdp path then
        { success := true, error := none,
          size := some (if env.outExists then env.outSize else 0),
          resolvedPath := some path, method := some "rtsp_udp", audio := none }
      else
        { success := false, error := some msg, size := none,
          resolvedPath := some path, method := none, audio := none }
    else
      { success := false, error := some msg, size := none,
        resolvedPath := some path, method := none, audio := none }
  | CopyRes.exc msg =>
    { success := false, error := some msg, size := none,
      resolvedPath := some path, method := none, audio := none }

/-- One pass of `record_rtsp_stream` with a given audio-retry
continuation: resolve the path, then run the copy. -/
def rtspOnePass (env : RtspEnv) (profile : String) (withAudio : Bool)
    (onAudioRetry : RtspResult) : RtspResult :=
  match resolveRtspPath env.probe (primaryStreamPath profile) with
  | none => noUrlResult
  | some path => rtspAfterResolve env path withAudio onAudioRetry

/-- Model of `record_rtsp_stream` (recorder.py lines 611-763).  The recursive
no-audio retry at line 718 can fire only when `withAudio` is true, so
the recursion is unfolded once; the continuation passed to the inner
pass is never consulted (`withAudio = false` falsifies the retry
guard). -/
def record_rtsp_stream (env : RtspEnv) (duration : Nat) (profile : String)
    (withAudio : Bool) : RtspResult :=
  if withAudio then
    rtspOnePass env profile true (rtspOnePass env profile false noUrlResult)
  else rtspOnePass env profile false noUrlResult

/-! ### Diagnostics: `diagnose_rtsp` -/

/-- The fixed catalog of stream path candidates swept by
`diagnose_rtsp` (recorder.py lines 1244-1267). -/
def rtspCatalog : List String :=
  ["/stream=0", "/stream=1", "/av0_0", "/av0_1", "/live", "/live0",
   "/live1", "/h264", "/h265", "/video", "/video0", "/video1", "/ch0",
   "/ch1", "/cam/realmonitor?channel=1&subtype=0",
   "/cam/realmonitor?channel=1&subtype=1", "/media/video1",
   "/media/video2", "/mjpeg/1", "/mjpeg/2", "/bytestream", "/"]

/-- Outcome of probing one catalog path: the ffmpeg probe exits 0,
exits non-zero with some stderr, or spawning it raises. -/
inductive ProbeRes where
  | ok
  | fail (err : String)
  | exc (err : String)
deriving DecidableEq, Repr

/-- The per-path entry `diagnose_rtsp` stores: `success` plus the
truncated stderr (`stderr.decode()[:200]`, line 1290) or the exception
text (line 1298). -/
structure DiagEntry where
  success : Bool
  error : Option String
deriving DecidableEq, Repr

/-- Build one results entry from a probe outcome (recorder.py lines
1287-1300): an exception is caught inside the loop body and recorded,
never propagated. -/
def diagEntry : ProbeRes → DiagEntry
  | ProbeRes.ok => { success := true, error := none }
  | ProbeRes.fail e => { success := false, error := some (e.take 200) }
  | ProbeRes.exc e => { success := false, error := some e }

/-- Model of `diagnose_rtsp` (recorder.py lines 1241-1302): the `for path in
rtsp_paths` loop inserts one entry per path into the results dict,
modelled as an association list built left to right. -/
def diagnose_rtsp (probe : String → ProbeRes) : List (String × DiagEntry) :=
  rtspCatalog.foldl (fun acc p => acc ++ [(p, diagEntry (probe p))]) []

/-! ### Helper lemmas -/

/-- Every branch of `record_video` reports `snapshotFrameCount` capture
attempts: the loop body runs once per index regardless of outcome. -/
theorem record_video_captureAttempts (env : RecordEnv) (d i : Nat) (a : Bool)
    (c : Option OsdCfg) :
    (record_video env d i a c).captureAttempts = snapshotFrameCount d i := by
  unfold record_video
  split
  · rfl
  · split <;> rfl

/-- Every branch of `record_video` leaves the same written-frame list:
the loop index filter. -/
theorem record_video_writtenFrames (env : RecordEnv) (d i : Nat) (a : Bool)
    (c : Option OsdCfg) :
    (record_video env d i a c).writtenFrames
      = capturedIndices env (snapshotFrameCount d i) := by
  unfold record_video
  split
  · rfl
  · split <;> rfl

theorem snapshotFrameCount_eq_max (d i : Nat) :
    snapshotFrameCount d i = max 1 (d / i) := by
  unfold snapshotFrameCount
  split <;> omega

theorem snapshotFrameCount_pos (d i : Nat) : 0 < snapshotFrameCount d i := by
  unfold snapshotFrameCount
  split <;> omega

/-- A template containing a placeholder the values dict does not
define expands to a `KeyError` (`none`), whatever else it contains. -/
theorem expandTemplate_eq_none (vals : String → Option String) (tpl : List TItem)
    (k : String) (hmem : TItem.ph k ∈ tpl) (hk : vals k = none) :
    expandTemplate vals tpl = none := by
  induction tpl with
  | nil => cases hmem
  | cons hd tl ih =>
    cases hd with
    | lit s =>
      have hmem2 : TItem.ph k ∈ tl := by
        rcases List.mem_cons.mp hmem with h | h
        · simp at h
        · exact h
      simp [expandTemplate, ih hmem2]
    | ph k2 =>
      by_cases hkk : k2 = k
      · subst hkk
        simp [expandTemplate, hk]
      · have hmem2 : TItem.ph k ∈ tl := by
          rcases List.mem_cons.mp hmem with h | h
          · injection h with h
            exact absurd h.symm hkk
          · exact h
        cases hv : vals k2 <;> simp [expandTemplate, hv, ih hmem2]

/-- Every branch of `record_video` hands `_add_text_to_image` the same
line list, computed once before the capture loop. -/
theorem record_video_osdLines (env : RecordEnv) (d i : Nat) (a : Bool)
    (c : Option OsdCfg) :
    (record_video env d i a c).osdLines = computeOsdLines env a c := by
  unfold record_video
  split
  · rfl
  · split <;> rfl

/-- The function `record_video` reports `success = true` only with the artifact's
reported on-disk size (0 when the file is absent). -/
theorem record_video_size (env : RecordEnv) (d i : Nat) (a : Bool)
    (c : Option OsdCfg) :
    (record_video env d i a c).success = true →
    (record_video env d i a c).size
      = some (if env.outExists then env.outSize else 0) := by
  unfold record_video
  split
  · intro h
    simp at h
  · split
    · intro h
      simp at h
    · intro _
      rfl

/-- With audio off, every branch of the post-resolution phase reports
the resolved path (the no-audio retry guard is vacuous). -/
theorem rtspAfterResolve_false_resolvedPath (env : RtspEnv) (path : String)
    (r : RtspResult) :
    (rtspAfterResolve env path false r).resolvedPath = some path := by
  unfold rtspAfterResolve
  split
  · rfl
  · split
    · rename_i h
      simp at h
    · split
      · split
        · rfl
        · rfl
      · rfl
  · rfl

/-- The post-resolution phase reports the resolved path whenever the
audio-retry continuation does. -/
theorem rtspAfterResolve_resolvedPath (env : RtspEnv) (path : String)
    (wa : Bool) (r : RtspResult) (hr : r.resolvedPath = some path) :
    (rtspAfterResolve env path wa r).resolvedPath = some path := by
  unfold rtspAfterResolve
  split
  · rfl
  · split
    · exact hr
    · split
      · split
        · rfl
        · rfl
      · rfl
  · rfl

/-- Whenever path resolution yields `path`, `record_rtsp_stream`
records from exactly that path. -/
theorem record_rtsp_resolvedPath (env : RtspEnv) (dur : Nat) (profile : String)
    (wa : Bool) (path : String)
    (h : resolveRtspPath env.probe (primaryStreamPath profile) = some path) :
    (record_rtsp_stream env dur profile wa).resolvedPath = some path := by
  have hfalse : (rtspOnePass env profile false noUrlResult).resolvedPath = some path := by
    unfold rtspOnePass
    rw [h]
    exact rtspAfterResolve_false_resolvedPath env path noUrlResult
  unfold record_rtsp_stream
  cases wa with
  | false => simpa using hfalse
  | true =>
    simp only [if_true]
    unfold rtspOnePass
    rw [h]
    exact rtspAfterResolve_resolvedPath env path true _
      (rtspAfterResolve_false_resolvedPath env path noUrlResult)

/-- When path resolution is exhausted, `record_rtsp_stream` returns
the no-working-URL failure. -/
theorem record_rtsp_noUrl (env : RtspEnv) (dur : Nat) (profile : String)
    (wa : Bool)
    (h : resolveRtspPath env.probe (primaryStreamPath profile) = none) :
    record_rtsp_stream env dur profile wa = noUrlResult := by
  unfold record_rtsp_stream rtspOnePass
  rw [h]
  cases wa <;> simp

/-- Success of the post-resolution phase only ever reports the
artifact's on-disk size, provided the audio-retry continuation does
the same. -/
theorem rtspAfterResolve_size (env : RtspEnv) (path : String) (wa : Bool)
    (r : RtspResult)
    (hr : r.success = true → r.size = some (if env.outExists then env.outSize else 0)) :
    (rtspAfterResolve env path wa r).success = true →
    (rtspAfterResolve env path wa r).size
      = some (if env.outExists then env.outSize else 0) := by
  unfold rtspAfterResolve
  split
  · intro _
    rfl
  · split
    · exact hr
    · split
      · split
        · intro _
          rfl
        · intro h
          simp at h
      · intro h
        simp at h
  · intro h
    simp at h

/-- Version of `rtspAfterResolve_size` for `rtspOnePass`. -/
theorem rtspOnePass_size (env : RtspEnv) (profile : String) (wa : Bool)
    (r : RtspResult)
    (hr : r.success = true → r.size = some (if env.outExists then env.outSize else 0)) :
    (rtspOnePass env profile wa r).success = true →
    (rtspOnePass env profile wa r).size
      = some (if env.outExists then env.outSize else 0) := by
  unfold rtspOnePass
  cases hres : resolveRtspPath env.probe (primaryStreamPath profile) with
  | none => intro h; simp [noUrlResult] at h
  | some path => exact rtspAfterResolve_size env path wa r hr

/-- The function `record_rtsp_stream` reports `success = true` only with the
artifact's reported on-disk size. -/
theorem record_rtsp_size (env : RtspEnv) (dur : Nat) (profile : String)
    (wa : Bool) :
    (record_rtsp_stream env dur profile wa).success = true →
    (record_rtsp_stream env dur profile wa).size
      = some (if env.outExists then env.outSize else 0) := by
  have hno : noUrlResult.success = true →
      noUrlResult.size = some (if env.outExists then env.outSize else 0) := by
    intro h
    simp [noUrlResult] at h
  unfold record_rtsp_stream
  cases wa with
  | false => simpa using rtspOnePass_size env profile false noUrlResult hno
  | true =>
    simp only [if_true]
    exact rtspOnePass_size env profile true _ (rtspOnePass_size env profile false noUrlResult hno)

/-- The function `find?` returns the element at the first index satisfying the
predicate. -/
theorem find?_of_first {α : Type} (p : α → Bool) (l : List α) (k : Nat)
    (hk : k < l.length) (hpk : p (l.get ⟨k, hk⟩) = true)
    (hbef : ∀ (j : Nat) (hj : j < l.length), j < k → p (l.get ⟨j, hj⟩) = false) :
    l.find? p = some (l.get ⟨k, hk⟩) := by
  induction l generalizing k with
  | nil => exact absurd hk (Nat.not_lt_zero k)
  | cons a t ih =>
    cases k with
    | zero =>
      have ha : p a = true := hpk
      rw [List.find?_cons_of_pos _ ha]
      rfl
    | succ k =>
      have ha : p a = false := hbef 0 (by simp) (Nat.succ_pos k)
      rw [List.find?_cons_of_neg _ (by simp [ha])]
      exact ih k (Nat.lt_of_succ_lt_succ hk) hpk
        (fun j hj hlt => hbef (j + 1) (Nat.succ_lt_succ hj) (Nat.succ_lt_succ hlt))

/-- Appending one mapped element per iteration is `map`. -/
theorem foldl_append_singleton {α β : Type} (f : α → β) (l : List α) :
    ∀ acc : List β, l.foldl (fun acc p => acc ++ [f p]) acc = acc ++ l.map f := by
  induction l with
  | nil => intro acc; simp
  | cons a t ih => intro acc; simp [ih]

/-- The diagnostics sweep is the catalog, mapped. -/
theorem diagnose_rtsp_eq_map (probe : String → ProbeRes) :
    diagnose_rtsp probe = rtspCatalog.map (fun p => (p, diagEntry (probe p))) := by
  unfold diagnose_rtsp
  simpa using foldl_append_singleton (fun p => (p, diagEntry (probe p))) rtspCatalog []

/-- Looking up a present key in a keyed map of itself returns its
image. -/
theorem lookup_map_of_mem (g : String → DiagEntry) (l : List String)
    (p : String) (hp : p ∈ l) :
    (l.map (fun x => (x, g x))).lookup p = some (g p) := by
  induction l with
  | nil => cases hp
  | cons a t ih =>
    by_cases h : p = a
    · subst h
      simp [List.lookup]
    · have hpt : p ∈ t := by
        rcases List.mem_cons.mp hp with h2 | h2
        · exact absurd h2 h
        · exact h2
      simp only [List.map_cons, List.lookup]
      rw [beq_eq_false_iff_ne.mpr h]
      exact ih hpt

theorem directLoop_count_le (outcome : Nat → DirectOutcome) :
    ∀ n i, (directLoop outcome n i).2 ≤ n := by
  intro n
  induction n with
  | zero => intro i; simp [directLoop]
  | succ n ih =>
    intro i
    unfold directLoop
    cases outcome i with
    | ok => simp
    | apiError tooBig =>
      cases tooBig with
      | true => simp
      | false => simpa using Nat.succ_le_succ (ih (i + 1))
    | timeoutErr => simpa using Nat.succ_le_succ (ih (i + 1))
    | exc => simpa using Nat.succ_le_succ (ih (i + 1))

end OpenIPC

namespace OpenIPC

/-! ### Claims -/

/-- Claim C1: for every duration `d > 0` and snapshot interval `i > 0`,
a snapshot-method recording (`record_video`) attempts exactly
`max(1, floor(d/i))` frame captures; in particular `duration = 15`,
`interval = 5` yields exactly 3 capture attempts. -/
theorem snapshot_capture_count (env : RecordEnv) (a : Bool) (c : Option OsdCfg)
    (d i : Nat) (hd : 0 < d) (hi : 0 < i) :
    (record_video env d i a c).captureAttempts = max 1 (d / i)
    ∧ (record_video env 15 5 a c).captureAttempts = 3 := by
  refine ⟨?_, ?_⟩
  · rw [record_video_captureAttempts, snapshotFrameCount_eq_max]
  · rw [record_video_captureAttempts]
    rfl

/-- An environment in which everything goes right: all captures
succeed, ffmpeg is present and exits 0, the artifact exists and is
non-empty. -/
def envA : RecordEnv :=
  { captureOk := fun _ => true, telemetry := fun _ => "N/A",
    ffmpegFound := true, encodeOk := true, outExists := true, outSize := 1024 }

theorem snapshot_capture_count_witness :
    0 < 15 ∧ 0 < 5
    ∧ (record_video envA 15 5 false none).captureAttempts = 3 :=
  ⟨by decide, by decide,
    (snapshot_capture_count envA false none 15 5 (by decide) (by decide)).2⟩

/-- Claim C2: for every run of `record_video` in which zero frame
captures succeed, the returned result has `success = false` with the
no-frames-captured error, and the temporary frame directory created for
that run no longer exists after the call returns (the cleanup at
recorder.py line 522 removes it on the failure path). -/
theorem zero_captures_cleanup (env : RecordEnv) (d i : Nat) (a : Bool)
    (c : Option OsdCfg) (hi : 0 < i)
    (h : ∀ j, j < snapshotFrameCount d i → env.captureOk j = false) :
    (record_video env d i a c).success = false
    ∧ (record_video env d i a c).error = some "No frames captured successfully"
    ∧ (record_video env d i a c).tempDirExists = false := by
  have hnil : capturedIndices env (snapshotFrameCount d i) = [] := by
    rw [capturedIndices, List.filter_eq_nil_iff]
    intro j hj
    simp only [Bool.not_eq_true]
    exact h j (List.mem_range.mp hj)
  unfold record_video
  rw [hnil]
  simp

/-- An environment in which every capture attempt fails. -/
def envZero : RecordEnv :=
  { captureOk := fun _ => false, telemetry := fun _ => "N/A",
    ffmpegFound := true, encodeOk := true, outExists := true, outSize := 1024 }

theorem zero_captures_cleanup_witness :
    (record_video envZero 15 5 false none).success = false
    ∧ (record_video envZero 15 5 false none).error
        = some "No frames captured successfully"
    ∧ (record_video envZero 15 5 false none).tempDirExists = false :=
  zero_captures_cleanup envZero 15 5 false none (by decide)
    (fun j _ => rfl)

/-- Claim C3: for every artifact whose size exceeds the 50 MB hard
ceiling, `send_to_telegram` returns `false` immediately with zero
upload attempts on any mechanism; e.g. a 60 MB artifact yields `false`
with an empty attempt list. -/
theorem oversize_artifact_rejected (env : TgEnv) (chatArg : Option String)
    (hex : env.fileExists = true) (hsz : 52428800 < env.fileSize) :
    send_to_telegram env chatArg = (false, []) := by
  unfold send_to_telegram
  rw [hex]
  simp [overTelegramCeiling, hsz]

/-- A delivery environment holding a 60 MB artifact with every
mechanism configured and available. -/
def envOversize : TgEnv :=
  { fileExists := true, fileSize := 62914560, botToken := some "token",
    configChatId := some "42", hasSendVideo := true, hasSendFile := true,
    hasNotify := true, directOutcome := fun _ => DirectOutcome.ok,
    sendVideoOk := true, sendFileOk := true, notifyOk := true }

theorem oversize_artifact_rejected_witness :
    envOversize.fileExists = true ∧ 52428800 < envOversize.fileSize
    ∧ send_to_telegram envOversize none = (false, []) :=
  ⟨rfl, by decide, oversize_artifact_rejected envOversize none rfl (by decide)⟩

/-- Claim C4: every invocation of `send_to_telegram_direct` performs at
most `max_retries` upload attempts, and the per-attempt timeout is
monotone nondecreasing in the attempt index. -/
theorem direct_attempts_bounded_timeout_monotone
    (outcome : Nat → DirectOutcome) (sizeBytes max_retries : Nat) :
    (send_to_telegram_direct outcome sizeBytes max_retries).2 ≤ max_retries
    ∧ ∀ k, attemptTimeout sizeBytes k ≤ attemptTimeout sizeBytes (k + 1) := by
  refine ⟨?_, ?_⟩
  · unfold send_to_telegram_direct
    split
    · simp
    · exact directLoop_count_le outcome max_retries 0
  · intro k
    unfold attemptTimeout
    exact Nat.mul_le_mul_left _ (by omega)

/-- Claim C10: a delivery call with no resolvable destination chat id
(none passed, none configured) returns `false` having attempted zero
mechanisms, even when the artifact exists and is under the size
ceiling. -/
theorem no_chat_id_no_attempts (env : TgEnv)
    (hex : env.fileExists = true) (hsz : env.fileSize ≤ 52428800)
    (hcfg : env.configChatId = none) :
    send_to_telegram env none = (false, []) := by
  unfold send_to_telegram
  rw [hex]
  simp [overTelegramCeiling, Nat.not_lt.mpr hsz, pyOrOpt, pyTruthy, hcfg]

/-- A delivery environment with a small artifact, a configured bot
token and all services available, but no chat id anywhere. -/
def envNoChat : TgEnv :=
  { fileExists := true, fileSize := 1048576, botToken := some "token",
    configChatId := none, hasSendVideo := true, hasSendFile := true,
    hasNotify := true, directOutcome := fun _ => DirectOutcome.ok,
    sendVideoOk := true, sendFileOk := true, notifyOk := true }

theorem no_chat_id_no_attempts_witness :
    send_to_telegram envNoChat none = (false, []) :=
  no_chat_id_no_attempts envNoChat rfl (by decide) rfl

/-- A run in which the capture at loop index 1 fails while indices 0
and 2 succeed. -/
def cexEnv5 : RecordEnv :=
  { captureOk := fun n => n != 1, telemetry := fun _ => "N/A",
    ffmpegFound := true, encodeOk := true, outExists := true, outSize := 1024 }

/-- Claim C5, counterexample: with `duration = 15`, `interval = 5` and
the middle capture failing, the frame files written for the successful
captures carry sequence numbers 0 and 2 — not a contiguous sequence
(the file name uses the loop index `i`, recorder.py line 470, so a
failed capture leaves a gap). -/
theorem frame_numbering_counterexample :
    ¬ ((record_video cexEnv5 15 5 false none).writtenFrames
       = List.range (record_video cexEnv5 15 5 false none).writtenFrames.length) := by
  decide

/-- Claim C5, amended: the sequence numbers of the frame files written
for successful captures are exactly the loop indices at which the
capture succeeded — strictly increasing, but with a gap at every failed
capture (failed captures are omitted and not retried; they are not
renumbered away). -/
theorem frame_numbering_by_attempt_index (env : RecordEnv) (d i : Nat)
    (a : Bool) (c : Option OsdCfg) (hi : 0 < i) :
    (∀ j, j ∈ (record_video env d i a c).writtenFrames
        ↔ (j < snapshotFrameCount d i ∧ env.captureOk j = true))
    ∧ (record_video env d i a c).writtenFrames.Pairwise (· < ·) := by
  rw [record_video_writtenFrames]
  constructor
  · intro j
    simp [capturedIndices, List.mem_filter, List.mem_range]
  · exact (List.pairwise_lt_range _).sublist (List.filter_sublist _)

theorem frame_numbering_by_attempt_index_witness :
    (2 ∈ (record_video cexEnv5 15 5 false none).writtenFrames)
    ↔ (2 < snapshotFrameCount 15 5 ∧ cexEnv5.captureOk 2 = true) :=
  (frame_numbering_by_attempt_index cexEnv5 15 5 false none (by decide)).1 2

/-- A run in which everything succeeds but the assembled artifact is
missing afterwards (`os.path.getsize` is replaced by `0`,
recorder.py line 501). -/
def cexEnv6 : RecordEnv :=
  { captureOk := fun _ => true, telemetry := fun _ => "N/A",
    ffmpegFound := true, encodeOk := true, outExists := false, outSize := 0 }

/-- Claim C6, counterexample: `record_video` returns `success = true`
with a reported size of `0` bytes when the encoder exits 0 but the
output file is absent — the code substitutes `0` instead of failing, so
`success = true` does not imply `sizeBytes > 0`. -/
theorem success_size_counterexample :
    (record_video cexEnv6 10 5 false none).success = true
    ∧ (record_video cexEnv6 10 5 false none).size = some 0 := by
  decide

/-- Claim C6, amended: whenever `record_video` or `record_rtsp_stream`
returns `success = true`, the reported size is the artifact's on-disk
size as measured after assembly, with `0` substituted when the file
does not exist; strict positivity is not checked by the code. -/
theorem success_size_reported (env : RecordEnv) (d i : Nat) (a : Bool)
    (c : Option OsdCfg) (renv : RtspEnv) (dur : Nat) (profile : String)
    (wa : Bool) :
    ((record_video env d i a c).success = true →
      (record_video env d i a c).size
        = some (if env.outExists then env.outSize else 0))
    ∧ ((record_rtsp_stream renv dur profile wa).success = true →
      (record_rtsp_stream renv dur profile wa).size
        = some (if renv.outExists then renv.outSize else 0)) :=
  ⟨record_video_size env d i a c, record_rtsp_size renv dur profile wa⟩

/-- A stream environment in which every probe and the TCP copy
succeed. -/
def rtspEnvA : RtspEnv :=
  { probe := fun _ => true, copyTcp := fun _ _ => CopyRes.exit0,
    copyUdp := fun _ => false, outExists := true, outSize := 2048 }

theorem success_size_reported_witness :
    (record_video envA 10 5 false none).size
      = some (if envA.outExists then envA.outSize else 0)
    ∧ (record_rtsp_stream rtspEnvA 10 "main" false).size
      = some (if rtspEnvA.outExists then rtspEnvA.outSize else 0) :=
  ⟨(success_size_reported envA 10 5 false none rtspEnvA 10 "main" false).1 (by decide),
   (success_size_reported envA 10 5 false none rtspEnvA 10 "main" false).2 (by decide)⟩

/-- Claim C7: when OSD is requested and the template contains a
placeholder outside the recognized set, the compositor falls back to
exactly the one fixed diagnostic line `"OSD TEST"` instead of aborting,
and — given the capture at index 0 succeeds and assembly succeeds — the
recording still completes with `success = true`. -/
theorem osd_unresolvable_fallback (env : RecordEnv) (cfg : OsdCfg) (d i : Nat)
    (k : String) (hi : 0 < i) (hmem : TItem.ph k ∈ cfg.template)
    (hk : k ∉ osdKeys) (h0 : env.captureOk 0 = true)
    (hff : env.ffmpegFound = true) (hen : env.encodeOk = true) :
    (record_video env d i true (some cfg)).osdLines = some ["OSD TEST"]
    ∧ (record_video env d i true (some cfg)).success = true := by
  have hvals : osdLookup env k = none := by
    simp [osdLookup, hk]
  have hexp : expandTemplate (osdLookup env) cfg.template = none :=
    expandTemplate_eq_none _ _ k hmem hvals
  have holines : computeOsdLines env true (some cfg) = some ["OSD TEST"] := by
    simp [computeOsdLines, hexp]
  have hmem0 : 0 ∈ capturedIndices env (snapshotFrameCount d i) :=
    List.mem_filter.mpr ⟨List.mem_range.mpr (snapshotFrameCount_pos d i), h0⟩
  have hne : ¬ (capturedIndices env (snapshotFrameCount d i)).length = 0 := by
    intro hl
    rw [List.length_eq_zero] at hl
    rw [hl] at hmem0
    cases hmem0
  have hcv : create_video_from_frames env = none := by
    simp [create_video_from_frames, hff, h0, hen]
  constructor
  · rw [record_video_osdLines]
    exact holines
  · unfold record_video
    rw [hcv]
    simp [hne]

/-- An OSD configuration whose template holds the unrecognized
placeholder `{cpu_temperature}`. -/
def cfg7 : OsdCfg :=
  { template := [TItem.lit "T = ", TItem.ph "cpu_temperature"] }

theorem osd_unresolvable_fallback_witness :
    (record_video envA 15 5 true (some cfg7)).osdLines = some ["OSD TEST"]
    ∧ (record_video envA 15 5 true (some cfg7)).success = true :=
  osd_unresolvable_fallback envA cfg7 15 5 "cpu_temperature" (by decide)
    (by decide) (by decide) rfl rfl rfl

/-- Claim C8: when the primary stream path's probe fails, the recorder
probes the fixed ordered alternate list in order: if the alternate at
index `k` is the first whose probe succeeds, the resolved path is that
alternate (which differs from the primary); if every candidate fails,
the call returns the no-working-URL failure result. -/
theorem rtsp_path_fallback (env : RtspEnv) (dur : Nat) (profile : String)
    (wa : Bool)
    (hp : env.probe (primaryStreamPath profile) = false) :
    (∀ (k : Nat) (hk : k < (rtspFallbackList (primaryStreamPath profile)).length),
       env.probe ((rtspFallbackList (primaryStreamPath profile)).get ⟨k, hk⟩) = true →
       (∀ (j : Nat) (hj : j < (rtspFallbackList (primaryStreamPath profile)).length),
          j < k →
          env.probe ((rtspFallbackList (primaryStreamPath profile)).get ⟨j, hj⟩) = false) →
       (record_rtsp_stream env dur profile wa).resolvedPath
         = some ((rtspFallbackList (primaryStreamPath profile)).get ⟨k, hk⟩)
       ∧ (rtspFallbackList (primaryStreamPath profile)).get ⟨k, hk⟩
           ≠ primaryStreamPath profile)
    ∧ ((∀ q ∈ rtspAltPaths, env.probe q = false) →
       record_rtsp_stream env dur profile wa = noUrlResult) := by
  constructor
  · intro k hk hpk hbef
    have hfind : (rtspFallbackList (primaryStreamPath profile)).find? env.probe
        = some ((rtspFallbackList (primaryStreamPath profile)).get ⟨k, hk⟩) :=
      find?_of_first env.probe _ k hk hpk hbef
    have hres : resolveRtspPath env.probe (primaryStreamPath profile)
        = some ((rtspFallbackList (primaryStreamPath profile)).get ⟨k, hk⟩) := by
      unfold resolveRtspPath
      rw [hp]
      simpa using hfind
    refine ⟨record_rtsp_resolvedPath env dur profile wa _ hres, ?_⟩
    have hmem := List.get_mem (rtspFallbackList (primaryStreamPath profile)) k hk
    have := List.mem_filter.mp hmem
    exact of_decide_eq_true this.2
  · intro hall
    apply record_rtsp_noUrl
    unfold resolveRtspPath
    rw [hp]
    simp only [Bool.false_eq_true, if_false]
    rw [List.find?_eq_none]
    intro q hq
    have hqAlt : q ∈ rtspAltPaths := (List.mem_filter.mp hq).1
    simp [hall q hqAlt]

/-- A stream environment in which only `/av0_0` probes successfully;
the primary for profile "main" is `/stream=0`. -/
def rtspEnv8 : RtspEnv :=
  { probe := fun p => p == "/av0_0", copyTcp := fun _ _ => CopyRes.exit0,
    copyUdp := fun _ => false, outExists := true, outSize := 7 }

theorem rtsp_path_fallback_witness :
    (record_rtsp_stream rtspEnv8 10 "main" false).resolvedPath = some "/av0_0" := by
  have h := (rtsp_path_fallback rtspEnv8 10 "main" false (by decide)).1 0
    (by decide) (by decide) (fun j hj hlt => absurd hlt (Nat.not_lt_zero j))
  exact h.1

/-- Claim C9: every run of `diagnose_rtsp` returns exactly one entry
per path of the fixed catalog (keys equal the 22-element catalog, which
has no duplicates), and — for every probe oracle, including ones that
fail or raise on some paths — every candidate is still probed and its
own entry recorded. -/
theorem diagnose_sweep_complete (probe : String → ProbeRes) :
    (diagnose_rtsp probe).map Prod.fst = rtspCatalog
    ∧ (diagnose_rtsp probe).length = 22
    ∧ ((diagnose_rtsp probe).map Prod.fst).Nodup
    ∧ ∀ p, p ∈ rtspCatalog →
        (diagnose_rtsp probe).lookup p = some (diagEntry (probe p)) := by
  have hmap := diagnose_rtsp_eq_map probe
  have hkeys : (diagnose_rtsp probe).map Prod.fst = rtspCatalog := by
    rw [hmap, List.map_map]
    exact List.map_id rtspCatalog
  refine ⟨hkeys, ?_, ?_, ?_⟩
  · rw [hmap]
    simp [rtspCatalog]
  · rw [hkeys]
    decide
  · intro p hp
    rw [hmap]
    exact lookup_map_of_mem _ _ p hp

/-- A probe oracle that raises on the first catalog path and succeeds
on every other. -/
def probeC9 : String → ProbeRes :=
  fun p => if p = "/stream=0" then ProbeRes.exc "spawn failed" else ProbeRes.ok

theorem diagnose_sweep_complete_witness :
    (diagnose_rtsp probeC9).lookup "/h264"
      = some { success := true, error := none } := by
  have h := (diagnose_sweep_complete probeC9).2.2.2 "/h264" (by decide)
  simpa [probeC9, diagEntry] using h

end OpenIPC
